import Mathlib

/-!
# Verification of the Decision Trace Construction & Temporal Reasoning Engine

Shallow embedding of the core of `backend/app` (policy_store.py,
decision_engine.py, graph_operations.py, main.py) and proofs of the
spec's testable properties.

Modelling conventions:
* `datetime` values are embedded as integers via `dt y mo d h mi s`,
  a lexicographic encoding that preserves the chronological order of
  in-range datetimes.
* Python floats are embedded as exact rationals (`ℚ`); `int(x)` is
  integer truncation toward zero (`Int.tdiv` on our nonnegative inputs).
* String-to-number parsing (`float(...)`, `_parse_timestamp`) is
  embedded by passing the parse *result* as an `Option` value: `none`
  covers both "field absent/falsy" and "parse failure", which the
  source treats identically on every path modelled here.
* Python dictionaries holding the fixed policy schema are embedded as
  structures; the concrete configuration always carries every key the
  code reads, so `dict.get` with a default is field access.
-/

/-- Encoding of `datetime(y, mo, d, h, mi, s)` as an `Int` instant:
a lexicographic packing that preserves chronological order. -/
def dt (y mo d h mi s : Int) : Int :=
  ((((y * 100 + mo) * 100 + d) * 100 + h) * 100 + mi) * 100 + s

/-- The `discount_limits` entry of a policy's `rules` dict. -/
structure DiscountLimits where
  standard_limit : ℚ
  manager_limit : ℚ
  vp_limit : ℚ
  cfo_limit : ℚ
deriving DecidableEq

/-- One element of `POLICY_VERSIONS` (policy_store.py): a policy version
with its effective interval and tiered discount limits. -/
structure PolicyVersion where
  version : String
  effective_from : Int
  effective_until : Option Int
  limits : DiscountLimits
deriving DecidableEq

/-- `timestamp >= effective_from and (effective_until is None or
timestamp <= effective_until)`: the interval test of
`get_policy_at_time`. -/
def PolicyVersion.containsTime (p : PolicyVersion) (t : Int) : Bool :=
  decide (p.effective_from ≤ t) &&
    (match p.effective_until with
     | none => true
     | some u => decide (t ≤ u))

/-- Policy version 3.1 of `POLICY_VERSIONS` (effective 2025-06-01
through 2025-12-31 23:59:59, limits 10/15/20/30). -/
def policyV31 : PolicyVersion :=
  { version := "3.1"
    effective_from := dt 2025 6 1 0 0 0
    effective_until := some (dt 2025 12 31 23 59 59)
    limits := ⟨10, 15, 20, 30⟩ }

/-- Policy version 3.2 of `POLICY_VERSIONS` (effective from 2026-01-01,
open-ended, limits 10/15/25/35). -/
def policyV32 : PolicyVersion :=
  { version := "3.2"
    effective_from := dt 2026 1 1 0 0 0
    effective_until := none
    limits := ⟨10, 15, 25, 35⟩ }

/-- The module-level `POLICY_VERSIONS` list of policy_store.py. -/
def POLICY_VERSIONS : List PolicyVersion := [policyV31, policyV32]

/-- The scan loop of `PolicyStore.get_policy_at_time`: walk the version
list in order and return the first version whose interval contains the
timestamp (continuing past versions whose interval ends before it). -/
def getPolicyAtTime : List PolicyVersion → Int → Option PolicyVersion
  | [], _ => none
  | p :: rest, t =>
    if p.effective_from ≤ t then
      match p.effective_until with
      | none => some p
      | some u => if t ≤ u then some p else getPolicyAtTime rest t
    else getPolicyAtTime rest t

/-- `PolicyStore`: holds the version list (`self._policies`). -/
structure PolicyStore where
  policies : List PolicyVersion
deriving DecidableEq

/-- Embedding of `PolicyStore.__init__`: it stores the module-level
`POLICY_VERSIONS` list (modelled as the argument) and performs no
validation whatsoever.  The `Except` return type models the
possibility of raising at load time; this constructor never uses it. -/
def PolicyStore.init (versions : List PolicyVersion) : Except String PolicyStore :=
  .ok ⟨versions⟩

/-- `PolicyStore.get_policy_at_time`. -/
def PolicyStore.get_policy_at_time (st : PolicyStore) (t : Int) :
    Option PolicyVersion :=
  getPolicyAtTime st.policies t

/-- The singleton `policy_store = PolicyStore()`. -/
def policy_store : PolicyStore := ⟨POLICY_VERSIONS⟩

/-- `limits.get(f"{approver_role}_limit", limits.get("standard_limit", 10))`:
role-keyed limit lookup with fallback to the standard limit. -/
def roleLimit (l : DiscountLimits) (role : String) : ℚ :=
  if role == "standard" then l.standard_limit
  else if role == "manager" then l.manager_limit
  else if role == "vp" then l.vp_limit
  else if role == "cfo" then l.cfo_limit
  else l.standard_limit

/-- `PolicyStore.get_discount_limit`. -/
def PolicyStore.get_discount_limit (st : PolicyStore) (t : Int)
    (role : String) : Option ℚ :=
  match st.get_policy_at_time t with
  | none => none
  | some p => some (roleLimit p.limits role)

/-- Return value of `check_discount_exceeds_limit`; optional fields are
keys the code includes only on some branches. -/
structure ExceedsCheck where
  exceeds : Bool
  limit : ℚ
  deviation : ℚ
  policy_version : String
  error : Option String
  approver_role : Option String
deriving DecidableEq

/-- `PolicyStore.check_discount_exceeds_limit`.  When no policy covers
the timestamp it reports `exceeds=True, limit=0, deviation=discount,
policy_version="unknown"` plus an error note; otherwise it compares
against the role's limit. -/
def PolicyStore.check_discount_exceeds_limit (st : PolicyStore)
    (discount_percent : ℚ) (t : Int) (role : String) : ExceedsCheck :=
  match st.get_policy_at_time t with
  | none =>
    { exceeds := true, limit := 0, deviation := discount_percent
      policy_version := "unknown"
      error := some "No policy found for timestamp", approver_role := none }
  | some p =>
    let limit := roleLimit p.limits role
    { exceeds := decide (limit < discount_percent), limit := limit
      deviation := max 0 (discount_percent - limit)
      policy_version := p.version, error := none, approver_role := some role }

/-- The scan loop returns exactly the first version (in list order)
whose interval contains the timestamp. -/
theorem getPolicyAtTime_eq_find (ps : List PolicyVersion) (t : Int) :
    getPolicyAtTime ps t = ps.find? (fun p => p.containsTime t) := by
  induction ps with
  | nil => rfl
  | cons p rest ih =>
    simp only [getPolicyAtTime, List.find?_cons]
    by_cases h1 : p.effective_from ≤ t
    · cases hu : p.effective_until with
      | none => simp [PolicyVersion.containsTime, h1, hu]
      | some u =>
        by_cases h2 : t ≤ u
        · simp [PolicyVersion.containsTime, h1, hu, h2]
        · simp [PolicyVersion.containsTime, h1, hu, h2, ih]
    · simp [PolicyVersion.containsTime, h1, ih]

/-!
## Claim C1 — temporal policy resolution
-/

/-- C1: `PolicyStore.get_policy_at_time(t)` scans the versions in
ascending `effective_from` order (the configured list is so ordered)
and returns the first version whose interval contains `t`; it returns a
containing version exactly when some configured interval contains `t`
(and that version is unique for the configured store), and `None`
otherwise. -/
theorem C1_temporal_policy_resolution (t : Int) :
    policy_store.get_policy_at_time t
        = POLICY_VERSIONS.find? (fun p => p.containsTime t)
    ∧ POLICY_VERSIONS.Pairwise (fun a b => a.effective_from ≤ b.effective_from)
    ∧ (policy_store.get_policy_at_time t = none
        ↔ ∀ p ∈ POLICY_VERSIONS, p.containsTime t = false)
    ∧ (∀ p, policy_store.get_policy_at_time t = some p → p.containsTime t = true)
    ∧ ((∃ p ∈ POLICY_VERSIONS, p.containsTime t = true)
        → (policy_store.get_policy_at_time t).isSome)
    ∧ (∀ p q, p ∈ POLICY_VERSIONS → q ∈ POLICY_VERSIONS →
        p.containsTime t = true → q.containsTime t = true → p = q) := by
  have hfind : policy_store.get_policy_at_time t
      = POLICY_VERSIONS.find? (fun p => p.containsTime t) :=
    getPolicyAtTime_eq_find POLICY_VERSIONS t
  refine ⟨hfind, by decide, ?_, ?_, ?_, ?_⟩
  · rw [hfind, List.find?_eq_none]
    constructor
    · intro h p hp
      simpa using h p hp
    · intro h p hp
      simp [h p hp]
  · intro p hp
    rw [hfind] at hp
    have hc := List.find?_some hp
    exact hc
  · intro ⟨p, hp, hc⟩
    rw [hfind, List.find?_isSome]
    exact ⟨p, hp, hc⟩
  · intro p q hp hq hcp hcq
    simp only [POLICY_VERSIONS, List.mem_cons, List.not_mem_nil, or_false] at hp hq
    rcases hp with hp | hp <;> rcases hq with hq | hq <;> subst hp <;> subst hq <;>
      first
      | rfl
      | (exfalso
         simp [PolicyVersion.containsTime, policyV31, policyV32, dt] at hcp hcq
         omega)

/-- Witness for C1 at a timestamp inside version 3.1's interval. -/
theorem C1_temporal_policy_resolution_witness :
    (policy_store.get_policy_at_time (dt 2025 7 1 0 0 0)).isSome = true
    ∧ ∀ p, policy_store.get_policy_at_time (dt 2025 7 1 0 0 0) = some p →
        p.containsTime (dt 2025 7 1 0 0 0) = true :=
  ⟨(C1_temporal_policy_resolution (dt 2025 7 1 0 0 0)).2.2.2.2.1
     ⟨policyV31, by decide, by decide⟩,
   (C1_temporal_policy_resolution (dt 2025 7 1 0 0 0)).2.2.2.1⟩

/-!
## Claim C9 — no load-time validation of the version set
-/

/-- An overlapping version: effective all of 2025. -/
def overlapA : PolicyVersion :=
  { version := "A"
    effective_from := dt 2025 1 1 0 0 0
    effective_until := some (dt 2025 12 31 23 59 59)
    limits := ⟨10, 15, 20, 30⟩ }

/-- A second version whose interval overlaps `overlapA` from
2025-06-01 onward. -/
def overlapB : PolicyVersion :=
  { version := "B"
    effective_from := dt 2025 6 1 0 0 0
    effective_until := none
    limits := ⟨10, 15, 25, 35⟩ }

/-- C9 counterexample: constructing the store from an overlapping
version set succeeds (no load-time configuration error is raised), both
versions contain 2025-07-01, and the query silently resolves the
ambiguity by returning the first version in list order. -/
theorem C9_counterexample :
    PolicyStore.init [overlapA, overlapB] = .ok ⟨[overlapA, overlapB]⟩
    ∧ overlapA.containsTime (dt 2025 7 1 0 0 0) = true
    ∧ overlapB.containsTime (dt 2025 7 1 0 0 0) = true
    ∧ (PolicyStore.mk [overlapA, overlapB]).get_policy_at_time
        (dt 2025 7 1 0 0 0) = some overlapA :=
  ⟨rfl, by decide, by decide, by decide⟩

/-- C9 amended: `PolicyStore` initialization performs no validation of
the version set — any list, including one with overlapping intervals,
is accepted at load time, and `get_policy_at_time` resolves any
ambiguity at query time by returning the first version in list order
whose interval contains the timestamp. -/
theorem C9_init_accepts_any_version_set (versions : List PolicyVersion) :
    PolicyStore.init versions = .ok ⟨versions⟩
    ∧ ∀ t, (PolicyStore.mk versions).get_policy_at_time t
        = versions.find? (fun p => p.containsTime t) :=
  ⟨rfl, fun t => getPolicyAtTime_eq_find versions t⟩

/-!
## Claim C10 — unknown policy treated as a zero limit
-/

/-- C10: when no policy version is active at `t`,
`check_discount_exceeds_limit(v, t, role)` reports `exceeds=True`,
`limit=0`, `deviation=v`, `policy_version="unknown"` (plus an error
note) — it treats the unknown policy as a zero limit instead of
reporting "policy unknown" as a non-answer. -/
theorem C10_unknown_policy_treated_as_zero_limit (st : PolicyStore) (v : ℚ)
    (t : Int) (role : String)
    (h : st.get_policy_at_time t = none) :
    st.check_discount_exceeds_limit v t role =
      { exceeds := true, limit := 0, deviation := v
        policy_version := "unknown"
        error := some "No policy found for timestamp"
        approver_role := none } := by
  simp only [PolicyStore.check_discount_exceeds_limit, h]

/-- Witness for C10 at a timestamp before the earliest version. -/
theorem C10_unknown_policy_treated_as_zero_limit_witness :
    policy_store.check_discount_exceeds_limit 7 (dt 2020 1 1 0 0 0) "standard" =
      { exceeds := true, limit := 0, deviation := 7
        policy_version := "unknown"
        error := some "No policy found for timestamp"
        approver_role := none } :=
  C10_unknown_policy_treated_as_zero_limit policy_store 7 (dt 2020 1 1 0 0 0)
    "standard" (by decide)

/-!
## Exception classifier (`DecisionEngine._detect_policy_exceptions`)
-/

/-- One `PolicyException` (models.py).  The source's
percentage-formatted string payloads (`"15%"`) and the `description`
f-string are presentation of the numeric values carried here; the
numeric content and the literal `exception_type` / `approved_by`
strings are kept as in the source. -/
structure PolicyException where
  exception_type : String
  policy_limit : ℚ
  actual_value : ℚ
  deviation : ℚ
  approved_by : String
deriving DecidableEq

/-- `DecisionEngine._detect_policy_exceptions`: with a parsed final
discount and a resolved policy, bucket the value against the policy's
standard/manager/vp limits (the source reads the three limits into
locals, inlined here); with no discount, an unparseable discount, or
no policy, return no exceptions. -/
def detect_policy_exceptions (final_discount : Option ℚ)
    (policy_data : Option PolicyVersion) : List PolicyException :=
  match final_discount, policy_data with
  | some v, some pol =>
    if pol.limits.standard_limit < v then
      if v ≤ pol.limits.manager_limit then
        [{ exception_type := "exceeds_standard_limit"
           policy_limit := pol.limits.standard_limit
           actual_value := v
           deviation := v - pol.limits.standard_limit
           approved_by := "Manager (within manager limit)" }]
      else if v ≤ pol.limits.vp_limit then
        [{ exception_type := "requires_vp_approval"
           policy_limit := pol.limits.manager_limit
           actual_value := v
           deviation := v - pol.limits.manager_limit
           approved_by := "VP (within VP limit)" }]
      else
        [{ exception_type := "exceeds_all_standard_limits"
           policy_limit := pol.limits.vp_limit
           actual_value := v
           deviation := v - pol.limits.vp_limit
           approved_by := "Executive exception required" }]
    else []
  | _, _ => []

/-!
## Claim C2 — tiered exception classification
-/

/-- C2: with limits `s < m < p`, the classifier returns no exception
for `v ≤ s`, and exactly one exception — with the tier's type and
`deviation = v - lower bound of the bucket` — for each of the three
buckets `(s, m]`, `(m, p]`, `(p, ∞)`.  In particular, with limits
`{10, 15, 20}`, value 18 yields exactly the requires-VP exception with
deviation 3, and value 27 the exceeds-all exception with deviation 7. -/
theorem C2_exception_classification (pol : PolicyVersion) (v : ℚ)
    (h1 : pol.limits.standard_limit < pol.limits.manager_limit)
    (h2 : pol.limits.manager_limit < pol.limits.vp_limit) :
    (v ≤ pol.limits.standard_limit →
      detect_policy_exceptions (some v) (some pol) = [])
    ∧ (pol.limits.standard_limit < v → v ≤ pol.limits.manager_limit →
      detect_policy_exceptions (some v) (some pol) =
        [{ exception_type := "exceeds_standard_limit"
           policy_limit := pol.limits.standard_limit
           actual_value := v
           deviation := v - pol.limits.standard_limit
           approved_by := "Manager (within manager limit)" }])
    ∧ (pol.limits.manager_limit < v → v ≤ pol.limits.vp_limit →
      detect_policy_exceptions (some v) (some pol) =
        [{ exception_type := "requires_vp_approval"
           policy_limit := pol.limits.manager_limit
           actual_value := v
           deviation := v - pol.limits.manager_limit
           approved_by := "VP (within VP limit)" }])
    ∧ (pol.limits.vp_limit < v →
      detect_policy_exceptions (some v) (some pol) =
        [{ exception_type := "exceeds_all_standard_limits"
           policy_limit := pol.limits.vp_limit
           actual_value := v
           deviation := v - pol.limits.vp_limit
           approved_by := "Executive exception required" }])
    ∧ detect_policy_exceptions (some 18) (some policyV31) =
        [{ exception_type := "requires_vp_approval"
           policy_limit := 15, actual_value := 18, deviation := 3
           approved_by := "VP (within VP limit)" }]
    ∧ detect_policy_exceptions (some 27) (some policyV31) =
        [{ exception_type := "exceeds_all_standard_limits"
           policy_limit := 20, actual_value := 27, deviation := 7
           approved_by := "Executive exception required" }] := by
  refine ⟨?_, ?_, ?_, ?_, by norm_num [detect_policy_exceptions, policyV31],
    by norm_num [detect_policy_exceptions, policyV31]⟩
  · intro hv
    simp only [detect_policy_exceptions]
    rw [if_neg (not_lt.mpr hv)]
  · intro hs hm
    simp only [detect_policy_exceptions]
    rw [if_pos hs, if_pos hm]
  · intro hm hvp
    simp only [detect_policy_exceptions]
    rw [if_pos (lt_trans h1 hm), if_neg (not_le.mpr hm), if_pos hvp]
  · intro hvp
    simp only [detect_policy_exceptions]
    rw [if_pos (by linarith), if_neg (by linarith), if_neg (not_le.mpr hvp)]

/-- Witness for C2: limits 10/15/20 with value 12 land in the first
bucket with deviation 2. -/
theorem C2_exception_classification_witness :
    detect_policy_exceptions (some 12) (some policyV31) =
      [{ exception_type := "exceeds_standard_limit"
         policy_limit := 10, actual_value := 12, deviation := 2
         approved_by := "Manager (within manager limit)" }] := by
  have h := (C2_exception_classification policyV31 12
      (by norm_num [policyV31]) (by norm_num [policyV31])).2.1
    (by norm_num [policyV31]) (by norm_num [policyV31])
  norm_num [policyV31] at h
  exact h

/-!
## Data model of the decision trace (models.py) and the trace assembler
(`DecisionEngine.construct_decision_trace`)

The assembler's external calls (email retrieval, LLM extraction, the
customer-data APIs, the Neo4j precedent lookup) are awaited inputs; the
embedding takes their results as fields of `ConstructInputs`.  The two
`_parse_timestamp` calls and the `float(...)` discount parse are
carried as their `Option` results; `uuid` generation and
`datetime.utcnow()` are carried as the inputs `decision_id` and `now`.
-/

/-- A scalar evidence value (`Union[str, int, float, bool, None]`). -/
inductive Scalar where
  | str : String → Scalar
  | int : Int → Scalar
  | rat : ℚ → Scalar
  | bool : Bool → Scalar
  | null : Scalar
deriving DecidableEq

/-- `Evidence` (models.py). -/
structure Evidence where
  source : String
  field : String
  value : Scalar
  captured_at : Int
deriving DecidableEq

/-- `DecisionRequest` (models.py). -/
structure DecisionRequest where
  customer : String
  requested_action : String
  requestor_email : Option String
  requestor_name : Option String
  requested_at : Option Int
  reason : Option String
deriving DecidableEq

/-- `DecisionOutcomeData` (models.py); the outcome enum is carried as
its string value. -/
structure DecisionOutcomeData where
  outcome : String
  final_action : String
  decision_maker_email : Option String
  decision_maker_name : Option String
  decided_at : Option Int
  reasoning : Option String
deriving DecidableEq

/-- `PolicyInfo` (models.py). -/
structure PolicyInfo where
  version : String
  effective_from : Int
  effective_until : Option Int
  limits : DiscountLimits
  exception_made : Bool
deriving DecidableEq

/-- `Precedent` (models.py). -/
structure Precedent where
  decision_id : String
  customer : String
  outcome : String
  similarity_score : ℚ
  timestamp : Int
  why_similar : Option String
deriving DecidableEq

/-- `DecisionTrace` (models.py). -/
structure DecisionTrace where
  decision_id : String
  timestamp : Int
  decision_type : String
  request : DecisionRequest
  decision : DecisionOutcomeData
  evidence : List Evidence
  policy : Option PolicyInfo
  precedents : List Precedent
  exceptions : List PolicyException
  source : String
  raw_email_text : String
deriving DecidableEq

/-- The already-resolved inputs of one `construct_decision_trace` run.
`Option` fields are absent/falsy-or-failed exactly where the source
treats them so. -/
structure ConstructInputs where
  customer_name : String
  decision_type : String
  source : String
  email_text : String
  decision_id : String
  now : Int
  decision_ts : Option Int
  request_ts : Option Int
  requested_discount : Option String
  final_discount_text : Option String
  final_discount : Option ℚ
  outcome : Option String
  requestor_email : Option String
  requestor_name : Option String
  decision_maker_email : Option String
  decision_maker_name : Option String
  reason : Option String
  reasoning : Option String
  evidence : List Evidence
  precedents : List Precedent
deriving DecidableEq

/-- `outcome_map.get(outcome_str, DecisionOutcome.PENDING)` applied to
`extracted.get("outcome", "pending").lower()`. -/
def outcomeOf (s : String) : String :=
  let l := s.toLower
  if l == "approved" then "approved"
  else if l == "rejected" then "rejected"
  else if l == "modified" then "modified"
  else if l == "escalated" then "escalated"
  else if l == "pending" then "pending"
  else "pending"

/-- `DecisionEngine.construct_decision_trace` (steps 3 and 5-8): resolve
the decision timestamp (parsed decision timestamp, else `utcnow()`),
resolve the policy at that instant, build the request/outcome
components, detect exceptions, flip `exception_made` when exceptions
were found, and assemble the immutable trace. -/
def construct_decision_trace (policies : List PolicyVersion)
    (ins : ConstructInputs) : DecisionTrace :=
  let decision_timestamp := ins.decision_ts.getD ins.now
  let policy_data := getPolicyAtTime policies decision_timestamp
  let policy_info0 : Option PolicyInfo := policy_data.map (fun p =>
    { version := p.version, effective_from := p.effective_from
      effective_until := p.effective_until, limits := p.limits
      exception_made := false })
  let exceptions := detect_policy_exceptions ins.final_discount policy_data
  let policy_info := match policy_info0, exceptions with
    | some pi, _ :: _ => some { pi with exception_made := true }
    | pi0, _ => pi0
  { decision_id := ins.decision_id
    timestamp := decision_timestamp
    decision_type := ins.decision_type
    request :=
      { customer := ins.customer_name
        requested_action := ins.requested_discount.getD "Unknown"
        requestor_email := ins.requestor_email
        requestor_name := ins.requestor_name
        requested_at := ins.request_ts
        reason := ins.reason }
    decision :=
      { outcome := outcomeOf (ins.outcome.getD "pending")
        final_action :=
          (match ins.final_discount_text with
           | some s => s
           | none => ins.requested_discount.getD "Unknown")
        decision_maker_email := ins.decision_maker_email
        decision_maker_name := ins.decision_maker_name
        decided_at := some decision_timestamp
        reasoning := ins.reasoning }
    evidence := ins.evidence
    policy := policy_info
    precedents := ins.precedents
    exceptions := exceptions
    source := ins.source
    raw_email_text := ins.email_text }

/-- A neutral input bundle used by the concrete instances below. -/
def insBase : ConstructInputs :=
  { customer_name := "MedTech Corp"
    decision_type := "discount_approval"
    source := "manual"
    email_text := "From: rep@company.com"
    decision_id := "dec_000000000001"
    now := dt 2026 2 1 0 0 0
    decision_ts := none
    request_ts := none
    requested_discount := none
    final_discount_text := none
    final_discount := none
    outcome := none
    requestor_email := none
    requestor_name := none
    decision_maker_email := none
    decision_maker_name := none
    reason := none
    reasoning := none
    evidence := []
    precedents := [] }

/-!
## Claim C3 — canonical timestamp fallback
-/

/-- Modelled from the spec's words, for comparison with the code: the
claimed three-step fallback "decision-outcome time if present, else the
request time, else the current instant". -/
def spec_canonical_timestamp (decision_ts request_ts : Option Int)
    (now : Int) : Int :=
  match decision_ts with
  | some t => t
  | none =>
    match request_ts with
    | some t => t
    | none => now

/-- Inputs with an unparseable decision timestamp but a parseable
request timestamp. -/
def insC3 : ConstructInputs :=
  { insBase with decision_ts := none
                 request_ts := some (dt 2025 7 1 0 0 0)
                 now := dt 2026 2 1 0 0 0 }

/-- C3 counterexample: when the extracted decision timestamp is absent
or unparseable, the code resolves the canonical timestamp directly to
`datetime.utcnow()` — the parseable request time (2025-07-01) is never
consulted, contradicting the claimed three-step fallback, which would
pick the request time here. -/
theorem C3_counterexample :
    (construct_decision_trace POLICY_VERSIONS insC3).timestamp
        = dt 2026 2 1 0 0 0
    ∧ spec_canonical_timestamp insC3.decision_ts insC3.request_ts insC3.now
        = dt 2025 7 1 0 0 0
    ∧ (construct_decision_trace POLICY_VERSIONS insC3).timestamp
        ≠ spec_canonical_timestamp insC3.decision_ts insC3.request_ts insC3.now :=
  ⟨rfl, rfl, by decide⟩

/-- C3 amended: the trace's canonical timestamp is the decision-outcome
time when the extracted decision timestamp is present and parseable,
and otherwise the current instant; the request time is never used as a
fallback (it only populates `requested_at`). -/
theorem C3_timestamp_resolution (policies : List PolicyVersion)
    (ins : ConstructInputs) :
    (construct_decision_trace policies ins).timestamp = ins.decision_ts.getD ins.now
    ∧ ∀ r, (construct_decision_trace policies { ins with request_ts := r }).timestamp
        = (construct_decision_trace policies ins).timestamp :=
  ⟨rfl, fun _ => rfl⟩

/-!
## Claim C5 — unresolved policy is non-fatal
-/

/-- C5: when the resolved decision timestamp lies outside every
configured policy interval, the (total) trace construction still
assembles a trace, with `policy = None` and no exceptions. -/
theorem C5_unresolved_policy_non_fatal (policies : List PolicyVersion)
    (ins : ConstructInputs)
    (h : ∀ p ∈ policies, p.containsTime (ins.decision_ts.getD ins.now) = false) :
    (construct_decision_trace policies ins).policy = none
    ∧ (construct_decision_trace policies ins).exceptions = [] := by
  have hp : getPolicyAtTime policies (ins.decision_ts.getD ins.now) = none := by
    rw [getPolicyAtTime_eq_find, List.find?_eq_none]
    intro p hpp
    simp [h p hpp]
  have hdet : detect_policy_exceptions ins.final_discount none = [] := by
    cases ins.final_discount <;> rfl
  constructor <;> simp [construct_decision_trace, hp, hdet]

/-- Inputs whose decision timestamp (2024-01-01) precedes the earliest
configured policy version. -/
def insEarly : ConstructInputs :=
  { insBase with decision_ts := some (dt 2024 1 1 0 0 0)
                 final_discount_text := some "18%"
                 final_discount := some 18 }

/-- Witness for C5 at a timestamp before the earliest version. -/
theorem C5_unresolved_policy_non_fatal_witness :
    (construct_decision_trace POLICY_VERSIONS insEarly).policy = none
    ∧ (construct_decision_trace POLICY_VERSIONS insEarly).exceptions = [] :=
  C5_unresolved_policy_non_fatal POLICY_VERSIONS insEarly (by decide)

/-!
## Claim C8 — `exception_made` iff exceptions non-empty
-/

/-- C8: in every assembled trace that carries a resolved policy,
`policy.exception_made` is true exactly when the trace's exceptions
collection is non-empty. -/
theorem C8_exception_flag_iff_exceptions (policies : List PolicyVersion)
    (ins : ConstructInputs) (pi : PolicyInfo)
    (h : (construct_decision_trace policies ins).policy = some pi) :
    (pi.exception_made = true
      ↔ (construct_decision_trace policies ins).exceptions ≠ []) := by
  rcases hpd : getPolicyAtTime policies (ins.decision_ts.getD ins.now) with _ | p
  · simp [construct_decision_trace, hpd, detect_policy_exceptions] at h
  · rcases hex : detect_policy_exceptions ins.final_discount (some p)
        with _ | ⟨e, es⟩
    · simp only [construct_decision_trace, hpd, hex, Option.map_some',
        Option.some.injEq] at h
      subst h
      simp [construct_decision_trace, hpd, hex]
    · simp only [construct_decision_trace, hpd, hex, Option.map_some',
        Option.some.injEq] at h
      subst h
      simp [construct_decision_trace, hpd, hex]

/-- Inputs resolving to policy 3.1 with a final discount of 18%. -/
def ins8 : ConstructInputs :=
  { insBase with decision_ts := some (dt 2025 7 1 0 0 0)
                 final_discount_text := some "18%"
                 final_discount := some 18 }

/-- The policy component the trace built from `ins8` carries. -/
def pi8 : PolicyInfo :=
  { version := "3.1"
    effective_from := dt 2025 6 1 0 0 0
    effective_until := some (dt 2025 12 31 23 59 59)
    limits := ⟨10, 15, 20, 30⟩
    exception_made := true }

/-- Witness for C8 on a trace with one exception. -/
theorem C8_exception_flag_iff_exceptions_witness :
    (pi8.exception_made = true
      ↔ (construct_decision_trace POLICY_VERSIONS ins8).exceptions ≠ []) :=
  C8_exception_flag_iff_exceptions POLICY_VERSIONS ins8 pi8 (by decide)

/-!
## Precedent matcher (`graph_operations.find_precedents`)

The Neo4j `Decision` nodes are modelled as a list of `DecisionNode`
records (the properties the modelled queries read); Cypher property
comparisons against a missing/null property are false, which the
`Option Scalar` match captures.  `int(customer_arr * 0.8)` /
`int(customer_arr * 1.2)` are exact rational scaling followed by
truncation toward zero (`Int.tdiv`).
-/

/-- A persisted `Decision` node (the properties read back by the
modelled queries; write-only presentation properties are elided). -/
structure DecisionNode where
  id : String
  dtype : String
  outcome : String
  customer_name : String
  customer_industry : Option Scalar
  customer_arr : Option Scalar
  final_action : String
  timestamp : Int
deriving DecidableEq

/-- `$arr_min = int(customer_arr * 0.8)`. -/
def arr_lower (a : Int) : Int := Int.tdiv (4 * a) 5

/-- `$arr_max = int(customer_arr * 1.2)`. -/
def arr_upper (a : Int) : Int := Int.tdiv (6 * a) 5

/-- Cypher `v > lo AND v < hi` on a stored property value: numeric
values compare numerically, anything else (or a missing property) is
not a match. -/
def scalarBetween (v : Scalar) (lo hi : Int) : Bool :=
  match v with
  | .int n => decide (lo < n) && decide (n < hi)
  | .rat q => decide ((lo : ℚ) < q) && decide (q < (hi : ℚ))
  | _ => false

/-- The `WHERE` clause assembled by `find_precedents`: always
`d.type = $type`; `d.customer_industry = $industry` when an industry is
given; `d.customer_arr > $arr_min AND d.customer_arr < $arr_max` when a
(truthy, i.e. non-zero) ARR is given. -/
def matchesPrecedentQuery (decision_type : String)
    (customer_industry : Option String) (customer_arr : Option Int)
    (d : DecisionNode) : Bool :=
  d.dtype == decision_type
  && (match customer_industry with
      | none => true
      | some i => d.customer_industry == some (.str i))
  && (match customer_arr with
      | none => true
      | some a =>
        if a == 0 then true
        else
          match d.customer_arr with
          | none => false
          | some v => scalarBetween v (arr_lower a) (arr_upper a))

/-- Insertion step of `ORDER BY d.timestamp DESC`. -/
def insertDescByTime (d : DecisionNode) : List DecisionNode → List DecisionNode
  | [] => [d]
  | x :: xs =>
    if x.timestamp < d.timestamp then d :: x :: xs else x :: insertDescByTime d xs

/-- `ORDER BY d.timestamp DESC` as an insertion sort. -/
def sortDescByTime : List DecisionNode → List DecisionNode
  | [] => []
  | d :: ds => insertDescByTime d (sortDescByTime ds)

/-- The fixed baseline similarity score `0.85`. -/
def BASELINE_SCORE : ℚ := 17 / 20

/-- The `why_similar` text (the f-string renders a missing industry as
Python's `None`; non-string industry values do not occur in the data
modelled here). -/
def whySimilarText : Option Scalar → String
  | some (.str s) => "Same industry (" ++ s ++ ") and similar ARR"
  | _ => "Same industry (None) and similar ARR"

/-- `graph_operations.find_precedents`: no connection yields `[]`;
otherwise filter the decisions by the assembled `WHERE` clause, order
by timestamp descending, truncate to `limit`, and wrap each record as a
`Precedent` with the fixed baseline score. -/
def find_precedents (connected : Bool) (history : List DecisionNode)
    (customer_industry : Option String) (customer_arr : Option Int)
    (decision_type : String) (limit : Nat) : List Precedent :=
  if !connected then []
  else
    ((sortDescByTime (history.filter
        (matchesPrecedentQuery decision_type customer_industry customer_arr))).take
      limit).map
      (fun d =>
        { decision_id := d.id
          customer := d.customer_name
          outcome := d.final_action
          similarity_score := BASELINE_SCORE
          timestamp := d.timestamp
          why_similar := some (whySimilarText d.customer_industry) })

/-- Membership in `insertDescByTime` comes from the inserted element or
the original list. -/
theorem mem_insertDescByTime {x d : DecisionNode} :
    ∀ {l : List DecisionNode}, x ∈ insertDescByTime d l → x = d ∨ x ∈ l := by
  intro l
  induction l with
  | nil => simp [insertDescByTime]
  | cons y ys ih =>
    simp only [insertDescByTime]
    by_cases h : y.timestamp < d.timestamp
    · simp only [if_pos h, List.mem_cons]
      tauto
    · simp only [if_neg h, List.mem_cons]
      intro hx
      rcases hx with hx | hx
      · tauto
      · rcases ih hx with hx | hx <;> tauto

/-- Membership in the descending sort comes from the original list. -/
theorem mem_sortDescByTime {x : DecisionNode} :
    ∀ {l : List DecisionNode}, x ∈ sortDescByTime l → x ∈ l := by
  intro l
  induction l with
  | nil => simp [sortDescByTime]
  | cons y ys ih =>
    simp only [sortDescByTime, List.mem_cons]
    intro hx
    rcases mem_insertDescByTime hx with hx | hx
    · tauto
    · exact Or.inr (ih hx)

/-!
## Claim C4 — the ARR (scale) precedent filter
-/

/-- Modelled from the spec's words, for comparison with the code: the
claimed inclusive ±20% window, `0.8a ≤ s ≤ 1.2a` written with exact
integer arithmetic. -/
def spec_scale_window (a s : Int) : Prop := 4 * a ≤ 5 * s ∧ 5 * s ≤ 6 * a

/-- A historical decision of scale 500,000. -/
def rec500k : DecisionNode :=
  { id := "dec_a", dtype := "discount_approval", outcome := "approved"
    customer_name := "Acme", customer_industry := some (.str "SaaS")
    customer_arr := some (.int 500000), final_action := "15% discount"
    timestamp := dt 2025 11 1 0 0 0 }

/-- A historical decision of scale 200,000. -/
def rec200k : DecisionNode :=
  { rec500k with id := "dec_b", customer_arr := some (.int 200000)
                 timestamp := dt 2025 10 1 0 0 0 }

/-- A historical decision of scale exactly 360,000 = 0.8 × 450,000. -/
def rec360k : DecisionNode :=
  { rec500k with id := "dec_c", customer_arr := some (.int 360000)
                 timestamp := dt 2025 9 1 0 0 0 }

/-- C4 counterexample: for query scale 450,000 the claimed inclusive
window `[0.8a, 1.2a]` contains a record of scale exactly 360,000, but
`find_precedents` filters with the strict bounds
`arr > int(0.8a) AND arr < int(1.2a)` and excludes it — so the kept set
is not the claimed inclusive interval.  (The claim's two examples do
hold: 500,000 is kept, 200,000 is not.) -/
theorem C4_counterexample :
    spec_scale_window 450000 360000
    ∧ find_precedents true [rec360k] none (some 450000) "discount_approval" 5 = []
    ∧ find_precedents true [rec500k, rec200k, rec360k] none (some 450000)
        "discount_approval" 5
      = [{ decision_id := "dec_a", customer := "Acme", outcome := "15% discount"
           similarity_score := BASELINE_SCORE, timestamp := dt 2025 11 1 0 0 0
           why_similar := some "Same industry (SaaS) and similar ARR" }] :=
  ⟨⟨by norm_num, by norm_num⟩, rfl, rfl⟩

/-- C4 amended: with a non-zero query scale `a`, the filter keeps
exactly the records whose recorded integer scale `s` lies strictly
between the truncated bounds, `int(0.8a) < s < int(1.2a)` — the bounds
are exclusive, not inclusive — and every returned precedent comes from
a record that passed this filter.  For query 450,000 the record of
scale 500,000 is kept and the one of 200,000 is excluded. -/
theorem C4_scale_filter (qt : String) (a s : Int) (d : DecisionNode)
    (ha : a ≠ 0) (hd : d.dtype = qt) (harr : d.customer_arr = some (.int s)) :
    (matchesPrecedentQuery qt none (some a) d = true
      ↔ (Int.tdiv (4 * a) 5 < s ∧ s < Int.tdiv (6 * a) 5))
    ∧ (∀ (history : List DecisionNode) (qi : Option String) (lim : Nat)
        (pr : Precedent),
        pr ∈ find_precedents true history qi (some a) qt lim →
        ∃ e ∈ history, matchesPrecedentQuery qt qi (some a) e = true
          ∧ e.id = pr.decision_id) := by
  constructor
  · simp [matchesPrecedentQuery, scalarBetween, arr_lower, arr_upper, hd, harr, ha]
  · intro history qi lim pr hpr
    simp only [find_precedents, Bool.not_true, Bool.false_eq_true, if_false,
      List.mem_map] at hpr
    rcases hpr with ⟨e, he, hfe⟩
    have he2 : e ∈ sortDescByTime (history.filter
        (matchesPrecedentQuery qt qi (some a))) := List.mem_of_mem_take he
    have he3 := mem_sortDescByTime he2
    rw [List.mem_filter] at he3
    refine ⟨e, he3.1, he3.2, ?_⟩
    rw [← hfe]

/-- Witness for C4's amended filter characterization: the 500,000
record passes the strict window for query scale 450,000. -/
theorem C4_scale_filter_witness :
    matchesPrecedentQuery "discount_approval" none (some 450000) rec500k = true :=
  ((C4_scale_filter "discount_approval" 450000 500000 rec500k (by decide)
      rfl rfl).1).mpr (by decide)

/-!
## Graph persistence (`graph_operations.save_decision_trace`)

Nodes are lists of records keyed as in the table of §4.5; Cypher
`MERGE ... ON CREATE SET` is create-if-absent; `CREATE` always appends.
Relationship property payloads (approval notes, exception details,
similarity scores) are elided — the modelled queries read only the
relationship type and its endpoints.  Each `_create_*` helper is a
state transformer on the graph; the transaction applies them in the
source's order, and a failure oracle (`failAt`) marks the write step at
which the driver raises, which aborts and rolls back the whole
transaction (the `except` clause then reports `False`).
-/

/-- A `Person` node (key: email). -/
structure PersonNode where
  email : String
  role : String
  name : String
deriving DecidableEq

/-- A `Policy` node (key: version).  The source stores the three limits
as `"10%"`-style strings; the numeric values are carried. -/
structure PolicyNode where
  version : String
  effective_from : Int
  effective_until : Option Int
  standard_limit : ℚ
  manager_limit : ℚ
  vp_limit : ℚ
deriving DecidableEq

/-- A `Customer` node (key: name). -/
structure CustomerNode where
  name : String
  industry : Option Scalar
  current_arr : Option Scalar
  tier : Option Scalar
  last_decision : Int
deriving DecidableEq

/-- An `Evidence` node (key: `evidence_{decision_id}_{field}`). -/
structure EvidenceNode where
  id : String
  source : String
  field : String
  value : Scalar
  captured_at : Int
  decision_id : String
deriving DecidableEq

/-- A relationship: its type and the keys of its two endpoints. -/
structure GraphRel where
  rtype : String
  src : String
  dst : String
deriving DecidableEq

/-- The Neo4j graph state. -/
structure Graph where
  decisions : List DecisionNode
  persons : List PersonNode
  policies : List PolicyNode
  customers : List CustomerNode
  evidences : List EvidenceNode
  rels : List GraphRel
deriving DecidableEq

/-- The empty graph. -/
def graph0 : Graph := ⟨[], [], [], [], [], []⟩

/-- The loops of `_create_decision_node` / `_create_customer_node` over
`trace.evidence`: the value of the last evidence item with the given
field (later assignments overwrite earlier ones), if any. -/
def evidenceFieldValue (evs : List Evidence) (fld : String) : Option Scalar :=
  evs.foldl (fun acc e => if e.field == fld then some e.value else acc) none

/-- Setting a Neo4j property to null leaves it absent. -/
def denull : Option Scalar → Option Scalar
  | some .null => none
  | v => v

/-- Python's `pat in s` substring test. -/
def strContains (s pat : String) : Bool := (s.splitOn pat).length != 1

/-- `_infer_role_from_email`. -/
def infer_role_from_email (email : String) : String :=
  let e := email.toLower
  if strContains e "manager" then "Manager"
  else if strContains e "vp" || strContains e "director" then "VP"
  else if strContains e "cfo" || strContains e "ceo" then "CFO"
  else "Manager"

/-- `_create_decision_node`: always `CREATE` a new Decision node. -/
def create_decision_node (g : Graph) (tr : DecisionTrace) : Graph :=
  { g with decisions := g.decisions ++
      [{ id := tr.decision_id
         dtype := tr.decision_type
         outcome := tr.decision.outcome
         customer_name := tr.request.customer
         customer_industry := denull (evidenceFieldValue tr.evidence "industry")
         customer_arr := denull (evidenceFieldValue tr.evidence "arr")
         final_action := tr.decision.final_action
         timestamp := tr.timestamp }] }

/-- `MERGE (p:Person {email}) ON CREATE SET role, name`: create only if
no node with that email exists; an existing node is left unchanged. -/
def merge_person (ps : List PersonNode) (email role name : String) :
    List PersonNode :=
  if ps.any (fun p => p.email == email) then ps
  else ps ++ [{ email := email, role := role, name := name }]

/-- The person-list effect of `_create_person_nodes`: merge the
requestor (role "Sales Rep") and then the decision maker (inferred
role), each only when its email is present. -/
def mergePersonsOf (ps : List PersonNode) (tr : DecisionTrace) :
    List PersonNode :=
  let ps1 := match tr.request.requestor_email with
    | some e => merge_person ps e "Sales Rep" (tr.request.requestor_name.getD "")
    | none => ps
  match tr.decision.decision_maker_email with
  | some e => merge_person ps1 e (infer_role_from_email e)
      (tr.decision.decision_maker_name.getD "")
  | none => ps1

/-- `_create_person_nodes`. -/
def create_person_nodes (g : Graph) (tr : DecisionTrace) : Graph :=
  { g with persons := mergePersonsOf g.persons tr }

/-- `str(value)` applied to boolean evidence values. -/
def normEvidenceValue : Scalar → Scalar
  | .bool b => .str (if b then "True" else "False")
  | v => v

/-- `_create_evidence_nodes`: always `CREATE` one node per evidence
item, keyed `evidence_{decision_id}_{field}`. -/
def create_evidence_nodes (g : Graph) (tr : DecisionTrace) : Graph :=
  { g with evidences := g.evidences ++ tr.evidence.map (fun e =>
      { id := "evidence_" ++ tr.decision_id ++ "_" ++ e.field
        source := e.source
        field := e.field
        value := normEvidenceValue e.value
        captured_at := e.captured_at
        decision_id := tr.decision_id }) }

/-- The Policy node created for a trace's policy component. -/
def policyNodeOf (pi : PolicyInfo) : PolicyNode :=
  { version := pi.version
    effective_from := pi.effective_from
    effective_until := pi.effective_until
    standard_limit := pi.limits.standard_limit
    manager_limit := pi.limits.manager_limit
    vp_limit := pi.limits.vp_limit }

/-- `MERGE (p:Policy {version}) ON CREATE SET ...`. -/
def merge_policy (ps : List PolicyNode) (pi : PolicyInfo) : List PolicyNode :=
  if ps.any (fun q => q.version == pi.version) then ps
  else ps ++ [policyNodeOf pi]

/-- The policy-list effect of `_create_policy_node` (no-op when the
trace has no policy). -/
def mergePolicyOf (ps : List PolicyNode) (tr : DecisionTrace) :
    List PolicyNode :=
  match tr.policy with
  | none => ps
  | some pi => merge_policy ps pi

/-- `_create_policy_node`. -/
def create_policy_node (g : Graph) (tr : DecisionTrace) : Graph :=
  { g with policies := mergePolicyOf g.policies tr }

/-- The customer-list effect of `_create_customer_node`:
create-if-absent; on match, overwrite `current_arr` only when the new
value is non-null (`COALESCE`) and always refresh `last_decision`. -/
def mergeCustomerOf (cs : List CustomerNode) (tr : DecisionTrace) :
    List CustomerNode :=
  let ind := denull (evidenceFieldValue tr.evidence "industry")
  let arr := denull (evidenceFieldValue tr.evidence "arr")
  let tier := denull (evidenceFieldValue tr.evidence "tier")
  if cs.any (fun c => c.name == tr.request.customer) then
    cs.map (fun c =>
      if c.name == tr.request.customer then
        { c with
          current_arr := match arr with
            | some v => some v
            | none => c.current_arr
          last_decision := tr.timestamp }
      else c)
  else
    cs ++ [{ name := tr.request.customer, industry := ind, current_arr := arr
             tier := tier, last_decision := tr.timestamp }]

/-- `_create_customer_node`. -/
def create_customer_node (g : Graph) (tr : DecisionTrace) : Graph :=
  { g with customers := mergeCustomerOf g.customers tr }

/-- Does the graph hold a Decision node with this id? -/
def hasDecision (g : Graph) (id : String) : Bool :=
  g.decisions.any (fun d => d.id == id)

/-- Does the graph hold a Person node with this email? -/
def hasPerson (g : Graph) (email : String) : Bool :=
  g.persons.any (fun p => p.email == email)

/-- Does the graph hold a Policy node with this version? -/
def hasPolicy (g : Graph) (v : String) : Bool :=
  g.policies.any (fun p => p.version == v)

/-- Does the graph hold a Customer node with this name? -/
def hasCustomer (g : Graph) (n : String) : Bool :=
  g.customers.any (fun c => c.name == n)

/-- Does the graph hold an Evidence node with this id? -/
def hasEvidence (g : Graph) (id : String) : Bool :=
  g.evidences.any (fun e => e.id == id)

/-- A `MATCH ... MATCH ... CREATE` relationship: created only when both
endpoint matches succeed. -/
def relIf (cond : Bool) (rtype src dst : String) : List GraphRel :=
  if cond then [{ rtype := rtype, src := src, dst := dst }] else []

/-- The relationships `_create_relationships` adds for a trace, each
guarded by its two `MATCH` clauses (relationships already added within
the same call do not affect node existence, so all are computed against
the incoming graph). -/
def relsOf (g : Graph) (tr : DecisionTrace) : List GraphRel :=
  (match tr.request.requestor_email with
   | some e => relIf (hasDecision g tr.decision_id && hasPerson g e)
       "REQUESTED_BY" tr.decision_id e
   | none => [])
  ++ (match tr.decision.decision_maker_email with
      | some e => relIf (hasDecision g tr.decision_id && hasPerson g e)
          "APPROVED_BY" tr.decision_id e
      | none => [])
  ++ tr.evidence.foldr (fun e acc =>
       relIf (hasDecision g tr.decision_id
           && hasEvidence g ("evidence_" ++ tr.decision_id ++ "_" ++ e.field))
         "BASED_ON" tr.decision_id
         ("evidence_" ++ tr.decision_id ++ "_" ++ e.field) ++ acc) []
  ++ (match tr.policy with
      | some pi => relIf (hasDecision g tr.decision_id && hasPolicy g pi.version)
          "EVALUATED" tr.decision_id pi.version
      | none => [])
  ++ (match tr.policy with
      | some pi => tr.exceptions.foldr (fun _ acc =>
          relIf (hasDecision g tr.decision_id && hasPolicy g pi.version)
            "OVERRODE" tr.decision_id pi.version ++ acc) []
      | none => [])
  ++ relIf (hasDecision g tr.decision_id && hasCustomer g tr.request.customer)
       "FOR_CUSTOMER" tr.decision_id tr.request.customer

/-- `_create_relationships`. -/
def create_relationships (g : Graph) (tr : DecisionTrace) : Graph :=
  { g with rels := g.rels ++ relsOf g tr }

/-- The `SIMILAR_TO` relationships of
`_create_similarity_relationships`. -/
def simRelsOf (g : Graph) (tr : DecisionTrace) : List GraphRel :=
  tr.precedents.foldr (fun pr acc =>
    relIf (hasDecision g tr.decision_id && hasDecision g pr.decision_id)
      "SIMILAR_TO" tr.decision_id pr.decision_id ++ acc) []

/-- `_create_similarity_relationships`. -/
def create_similarity_relationships (g : Graph) (tr : DecisionTrace) : Graph :=
  { g with rels := g.rels ++ simRelsOf g tr }

/-- The write steps of one `save_decision_trace` transaction, in the
source's order. -/
def txWriteSteps (tr : DecisionTrace) : List (Graph → Graph) :=
  [fun g => create_decision_node g tr,
   fun g => create_person_nodes g tr,
   fun g => create_evidence_nodes g tr,
   fun g => create_policy_node g tr,
   fun g => create_customer_node g tr,
   fun g => create_relationships g tr,
   fun g => create_similarity_relationships g tr]

/-- Run the write steps inside the transaction: a driver exception at
step `failAt` aborts, which discards every buffered write. -/
def runTransaction (failAt : Option Nat) :
    Nat → Graph → List (Graph → Graph) → Option Graph
  | _, g, [] => some g
  | i, g, f :: fs =>
    if failAt = some i then none else runTransaction failAt (i + 1) (f g) fs

/-- The committed state of a fully successful transaction. -/
def apply_tx (g : Graph) (tr : DecisionTrace) : Graph :=
  (txWriteSteps tr).foldl (fun a f => f a) g

/-- `save_decision_trace`: skip when not connected; otherwise run every
write inside a single transaction, roll back to the incoming state on
any failure, and report success as a boolean (never raising — the
`except` clause catches everything). -/
def save_decision_trace (connected : Bool) (failAt : Option Nat) (g : Graph)
    (tr : DecisionTrace) : Graph × Bool :=
  if !connected then (g, false)
  else
    match runTransaction failAt 0 g (txWriteSteps tr) with
    | none => (g, false)
    | some g2 => (g2, true)

/-- `main.ingest_decision`: construct the trace, attempt persistence,
and return the in-memory trace together with the resulting graph and
the persistence outcome (the endpoint returns the trace whether or not
the save succeeded). -/
def ingest_decision (policies : List PolicyVersion) (g : Graph)
    (connected : Bool) (failAt : Option Nat) (ins : ConstructInputs) :
    Graph × DecisionTrace × Bool :=
  let trace := construct_decision_trace policies ins
  let res := save_decision_trace connected failAt g trace
  (res.1, trace, res.2)

/-- A transaction that fails at any step within range aborts with no
committed state. -/
theorem runTransaction_abort (k : Nat) :
    ∀ (steps : List (Graph → Graph)) (i : Nat) (g : Graph),
      i ≤ k → k < i + steps.length → runTransaction (some k) i g steps = none := by
  intro steps
  induction steps with
  | nil =>
    intro i g h1 h2
    exfalso
    simp at h2
    omega
  | cons f fs ih =>
    intro i g h1 h2
    simp only [runTransaction]
    by_cases hik : (some k : Option Nat) = some i
    · rw [if_pos hik]
    · rw [if_neg hik]
      have hk : k ≠ i := fun h => hik (by rw [h])
      apply ih (i + 1) (f g) (by omega)
      simp only [List.length_cons] at h2
      omega

/-- A failure-free transaction commits every write in order. -/
theorem runTransaction_complete :
    ∀ (steps : List (Graph → Graph)) (i : Nat) (g : Graph),
      runTransaction none i g steps = some (steps.foldl (fun a f => f a) g) := by
  intro steps
  induction steps with
  | nil => intro i g; rfl
  | cons f fs ih =>
    intro i g
    simp only [runTransaction, List.foldl_cons]
    rw [if_neg (by simp)]
    exact ih (i + 1) (f g)

/-- Whenever `save_decision_trace` reports failure, the graph state it
leaves behind is the incoming one. -/
theorem save_failed_unchanged (connected : Bool) (failAt : Option Nat)
    (g : Graph) (tr : DecisionTrace)
    (h : (save_decision_trace connected failAt g tr).2 = false) :
    (save_decision_trace connected failAt g tr).1 = g := by
  cases connected with
  | false => simp [save_decision_trace]
  | true =>
    rcases hr : runTransaction failAt 0 g (txWriteSteps tr) with _ | g2
    · simp [save_decision_trace, hr]
    · simp [save_decision_trace, hr] at h

/-- A fully successful save commits exactly the seven write steps. -/
theorem save_none_commits (g : Graph) (tr : DecisionTrace) :
    save_decision_trace true none g tr = (apply_tx g tr, true) := by
  simp [save_decision_trace, runTransaction_complete, apply_tx]

/-!
## Claim C6 — transactional persistence, failure leaves no partial state
-/

/-- C6: all node and relationship writes of one trace run inside a
single transaction; a failure at any write step leaves the graph
unchanged and makes `save_decision_trace` return `False` (it never
raises — it is total); a failure-free run commits all writes; and the
ingest endpoint returns the in-memory trace regardless, with the graph
unchanged whenever persistence reported failure. -/
theorem C6_transactional_persistence (g : Graph) (tr : DecisionTrace)
    (connected : Bool) (failAt : Option Nat) (k : Nat)
    (policies : List PolicyVersion) (ins : ConstructInputs) :
    ((save_decision_trace connected failAt g tr).2 = false →
      (save_decision_trace connected failAt g tr).1 = g)
    ∧ (k < (txWriteSteps tr).length →
      save_decision_trace true (some k) g tr = (g, false))
    ∧ save_decision_trace true none g tr = (apply_tx g tr, true)
    ∧ (ingest_decision policies g connected failAt ins).2.1
        = construct_decision_trace policies ins
    ∧ ((ingest_decision policies g connected failAt ins).2.2 = false →
      (ingest_decision policies g connected failAt ins).1 = g) := by
  refine ⟨save_failed_unchanged connected failAt g tr, ?_, save_none_commits g tr,
    rfl, ?_⟩
  · intro hk
    have habort := runTransaction_abort k (txWriteSteps tr) 0 g (Nat.zero_le k)
      (by simpa using hk)
    simp [save_decision_trace, habort]
  · intro h
    exact save_failed_unchanged connected failAt g
      (construct_decision_trace policies ins) h

/-- Witness for C6: a failure at write step 3 (the policy-node merge)
of a concrete ingest leaves the empty graph empty and reports
failure. -/
theorem C6_transactional_persistence_witness :
    save_decision_trace true (some 3) graph0
        (construct_decision_trace POLICY_VERSIONS ins8) = (graph0, false) :=
  (C6_transactional_persistence graph0
      (construct_decision_trace POLICY_VERSIONS ins8) true (some 3) 3
      POLICY_VERSIONS ins8).2.1 (by decide)

/-- Of the seven write steps, only `_create_person_nodes` touches the
Person nodes. -/
theorem apply_tx_persons (g : Graph) (tr : DecisionTrace) :
    (apply_tx g tr).persons = mergePersonsOf g.persons tr := rfl

/-- Of the seven write steps, only `_create_policy_node` touches the
Policy nodes. -/
theorem apply_tx_policies (g : Graph) (tr : DecisionTrace) :
    (apply_tx g tr).policies = mergePolicyOf g.policies tr := rfl

/-- No Person node carries the email, so the `MERGE` existence check is
negative. -/
theorem any_email_of_not_mem {ps : List PersonNode} {e : String}
    (h : ∀ p ∈ ps, p.email ≠ e) :
    (ps.any fun p => p.email == e) = false := by
  rw [List.any_eq_false]
  intro p hp
  simp [h p hp]

/-- No Policy node carries the version, so the `MERGE` existence check
is negative. -/
theorem any_version_of_not_mem {ps : List PolicyNode} {v : String}
    (h : ∀ q ∈ ps, q.version ≠ v) :
    (ps.any fun q => q.version == v) = false := by
  rw [List.any_eq_false]
  intro q hq
  simp [h q hq]

/-!
## Claim C7 — idempotent shared-entity merges
-/

/-- C7: persisting two traces that share a requestor email (and share a
policy version) yields exactly one Person node with that email — with
the role/name set by the first creation — and exactly one Policy node
with that version, carrying the first trace's limits; the second save
changes neither node list. -/
theorem C7_shared_entity_idempotent_merge (g : Graph) (t1 t2 : DecisionTrace)
    (e : String) (pv pv2 : PolicyInfo)
    (h1 : t1.request.requestor_email = some e)
    (h2 : t2.request.requestor_email = some e)
    (h3 : t1.decision.decision_maker_email = none)
    (h4 : t2.decision.decision_maker_email = none)
    (h5 : ∀ p ∈ g.persons, p.email ≠ e)
    (h6 : t1.policy = some pv)
    (h7 : t2.policy = some pv2)
    (h8 : pv2.version = pv.version)
    (h9 : ∀ q ∈ g.policies, q.version ≠ pv.version) :
    ((save_decision_trace true none
        (save_decision_trace true none g t1).1 t2).1.persons.filter
          (fun p => p.email == e))
      = [{ email := e, role := "Sales Rep"
           name := t1.request.requestor_name.getD "" }]
    ∧ (save_decision_trace true none
        (save_decision_trace true none g t1).1 t2).1.persons
      = (save_decision_trace true none g t1).1.persons
    ∧ ((save_decision_trace true none
        (save_decision_trace true none g t1).1 t2).1.policies.filter
          (fun q => q.version == pv.version))
      = [policyNodeOf pv]
    ∧ (save_decision_trace true none
        (save_decision_trace true none g t1).1 t2).1.policies
      = (save_decision_trace true none g t1).1.policies := by
  have hs1 : (save_decision_trace true none g t1).1 = apply_tx g t1 := by
    rw [save_none_commits]
  have hs2 : (save_decision_trace true none (apply_tx g t1) t2).1
      = apply_tx (apply_tx g t1) t2 := by
    rw [save_none_commits]
  have hpersons1 : (apply_tx g t1).persons
      = g.persons ++ [{ email := e, role := "Sales Rep"
                        name := t1.request.requestor_name.getD "" }] := by
    rw [apply_tx_persons]
    simp only [mergePersonsOf, h1, h3]
    simp [merge_person, any_email_of_not_mem h5]
  have hpersons2 : (apply_tx (apply_tx g t1) t2).persons
      = (apply_tx g t1).persons := by
    rw [apply_tx_persons]
    simp only [mergePersonsOf, h2, h4]
    have hmem : ((apply_tx g t1).persons.any fun p => p.email == e) = true := by
      rw [hpersons1, List.any_eq_true]
      exact ⟨{ email := e, role := "Sales Rep"
               name := t1.request.requestor_name.getD "" }, by simp, by simp⟩
    simp [merge_person, hmem]
  have hpolicies1 : (apply_tx g t1).policies
      = g.policies ++ [policyNodeOf pv] := by
    rw [apply_tx_policies]
    simp only [mergePolicyOf, h6]
    simp [merge_policy, any_version_of_not_mem h9]
  have hpolicies2 : (apply_tx (apply_tx g t1) t2).policies
      = (apply_tx g t1).policies := by
    rw [apply_tx_policies]
    simp only [mergePolicyOf, h7]
    have hmem : ((apply_tx g t1).policies.any
        fun q => q.version == pv2.version) = true := by
      rw [hpolicies1, List.any_eq_true]
      exact ⟨policyNodeOf pv, by simp, by simp [policyNodeOf, h8]⟩
    simp [merge_policy, hmem]
  rw [hs1, hs2]
  refine ⟨?_, hpersons2, ?_, hpolicies2⟩
  · rw [hpersons2, hpersons1, List.filter_append]
    have hnil : g.persons.filter (fun p => p.email == e) = [] := by
      rw [List.filter_eq_nil_iff]
      intro p hp
      simp [h5 p hp]
    rw [hnil]
    simp
  · rw [hpolicies2, hpolicies1, List.filter_append]
    have hnil : g.policies.filter (fun q => q.version == pv.version) = [] := by
      rw [List.filter_eq_nil_iff]
      intro q hq
      simp [h9 q hq]
    rw [hnil]
    simp [policyNodeOf]

/-- The policy component of the first concrete trace (version 3.1). -/
def piA : PolicyInfo :=
  { version := "3.1"
    effective_from := dt 2025 6 1 0 0 0
    effective_until := some (dt 2025 12 31 23 59 59)
    limits := ⟨10, 15, 20, 30⟩
    exception_made := false }

/-- A second policy component with the same version key but different
limit values. -/
def piB : PolicyInfo := { piA with limits := ⟨11, 16, 21, 31⟩ }

/-- A concrete trace whose requestor is `rep@co.com`. -/
def trA : DecisionTrace :=
  { decision_id := "dec_aaa"
    timestamp := dt 2025 7 1 0 0 0
    decision_type := "discount_approval"
    request :=
      { customer := "Acme", requested_action := "18% discount"
        requestor_email := some "rep@co.com", requestor_name := some "Rae Rep"
        requested_at := none, reason := none }
    decision :=
      { outcome := "approved", final_action := "18% discount"
        decision_maker_email := none, decision_maker_name := none
        decided_at := some (dt 2025 7 1 0 0 0), reasoning := none }
    evidence := []
    policy := some piA
    precedents := []
    exceptions := []
    source := "manual"
    raw_email_text := "" }

/-- A second concrete trace sharing the requestor email and the policy
version, with a different requestor name and different limit values. -/
def trB : DecisionTrace :=
  { trA with decision_id := "dec_bbb"
             request := { trA.request with requestor_name := some "Other Name" }
             policy := some piB }

/-- Witness for C7: persisting `trA` then `trB` into the empty graph
leaves exactly one `rep@co.com` Person (named by `trA`) and exactly one
version-3.1 Policy node (with `trA`'s limits). -/
theorem C7_shared_entity_idempotent_merge_witness :
    ((save_decision_trace true none
        (save_decision_trace true none graph0 trA).1 trB).1.persons.filter
          (fun p => p.email == "rep@co.com"))
      = [{ email := "rep@co.com", role := "Sales Rep"
           name := trA.request.requestor_name.getD "" }]
    ∧ ((save_decision_trace true none
        (save_decision_trace true none graph0 trA).1 trB).1.policies.filter
          (fun q => q.version == piA.version))
      = [policyNodeOf piA] :=
  ⟨(C7_shared_entity_idempotent_merge graph0 trA trB "rep@co.com" piA piB
      rfl rfl rfl rfl (by simp [graph0]) rfl rfl rfl (by simp [graph0])).1,
   (C7_shared_entity_idempotent_merge graph0 trA trB "rep@co.com" piA piB
      rfl rfl rfl rfl (by simp [graph0]) rfl rfl rfl (by simp [graph0])).2.2.1⟩
